import Mathlib

/-!
Verification of the daily-grid generation core of the tennis quiz repository.

The development shallowly embeds the TypeScript sources:

* `lib/validation.ts` — the per-category player predicates;
* `app/api/daily-quiz/route.ts` — the generation loop, the cell validator
  `checkCellHasSolution`, the cache read/write helpers and the resolution
  chain of the `GET` handler;
* `app/api/admin/quiz-templates/validate/route.ts` — the admin cell
  validator `validateCell` and the overall-status reduction;
* `app/api/admin/suggest-categories/route.ts` and the identical copy in
  `daily-quiz/route.ts` — `selectSmartCategories`;
* `app/api/admin/quiz-templates/[id]/publish/route.ts` — publish/unpublish.

Database reads are passed in as explicit values (an `Except` for a fetch
that can fail, lists of rows for table states); the JavaScript ambient
facts that the code reads (`new Date().getFullYear()`, `JSON.parse` of an
era payload) are collected in `JsEnv`.  `Math.sin`-based hashing is
abstracted as an integer-valued table `sineRaw`, composed with the `% max`
and `floor` steps exactly as in the source (the spec itself notes that
only same-seed-same-output determinism of this hash is relied upon).
-/

namespace Tennis

/-- A quiz category as produced by the pool builders: a `type` tag
(`"country"`, `"tournament"`, `"era"`, `"style"`, `"ranking"`,
`"achievement"` — kept as a string because the TypeScript `switch` has a
default branch for unknown tags), a stable `id`, display fields and the
raw predicate parameter `value`. -/
structure Category where
  type : String
  id : String
  label : String
  description : String
  value : String
deriving Repr, DecidableEq

/-- One row of `player_achievements` as selected by the cell validators:
`result`, `achievement_type`, and the joined `tournaments.short_name`
(`none` models SQL `null` / a missing join). -/
structure Achievement where
  result : Option String
  achievement_type : Option String
  tournament_short_name : Option String
deriving Repr, DecidableEq

/-- One row of `player_rankings`; `none` models a `null`
`singles_ranking`. -/
structure Ranking where
  singles_ranking : Option Int
deriving Repr, DecidableEq

/-- A player record as selected by the cell validators.  `none` in the
two related-data fields models a missing / non-array value, which the
TypeScript guards test with `Array.isArray`. -/
structure Player where
  name : String
  nationality : Option String
  turned_pro : Option Int
  retired : Option Int
  plays_hand : Option String
  player_achievements : Option (List Achievement)
  player_rankings : Option (List Ranking)
deriving Repr, DecidableEq

/-- Ambient JavaScript facts read by `validateEra`:
`parseActiveYears` models `JSON.parse` of a brace-initial era payload,
returning the `active_years` window when present (`none` covers both a
parse failure and a parse result without `active_years`, which falls
through to the string `switch` where a brace-initial string matches no
case — `false` either way); `currentYear` models
`new Date().getFullYear()`. -/
structure JsEnv where
  parseActiveYears : String → Option (Int × Int)
  currentYear : Int

/-- JavaScript `x || d` for a nullable number: `null`/`undefined` and `0`
are falsy, so both fall back to the default. -/
def jsOrYear (x : Option Int) (d : Int) : Int :=
  match x with
  | none => d
  | some v => if v = 0 then d else v

/-- `validateTournamentFromData` of `lib/validation.ts`: guarded on the
achievements being an array, then a scan for a matching joined tournament
name with result `"winner"`. -/
def validateTournamentFromData (player : Player) (tournamentName : String) : Bool :=
  match player.player_achievements with
  | none => false
  | some achievements =>
    achievements.any (fun a =>
      a.tournament_short_name == some tournamentName && a.result == some "winner")

/-- `validateRankingFromData` of `lib/validation.ts`.  For `"world_no1"`
strict equality `=== 1` is used (a `null` ranking does not match); for
`"top10"` the JavaScript comparison `null <= 10` coerces `null` to `0`,
modelled by `getD 0`. -/
def validateRankingFromData (player : Player) (rankingType : String) : Bool :=
  match player.player_rankings with
  | none => false
  | some rankings =>
    match rankingType with
    | "world_no1" =>
      let hasNo1Ranking := rankings.any (fun r => r.singles_ranking == some 1)
      let hasYearEndNo1 :=
        match player.player_achievements with
        | none => false
        | some achievements =>
          achievements.any (fun a => a.tournament_short_name == some "Year-End #1")
      hasNo1Ranking || hasYearEndNo1
    | "top10" =>
      rankings.any (fun r => decide (r.singles_ranking.getD 0 ≤ 10))
    | _ => false

/-- `validateAchievementFromData` of `lib/validation.ts`. -/
def validateAchievementFromData (player : Player) (achievementType : String) : Bool :=
  match player.player_achievements with
  | none => false
  | some achievements =>
    achievements.any (fun a => a.achievement_type == some achievementType)

/-- `validateEra` of `lib/validation.ts`: career window from
`turned_pro || 1990` and `retired || currentYear`, a JSON branch for
brace-initial payloads, then the decade `switch`. -/
def validateEra (env : JsEnv) (player : Player) (era : String) : Bool :=
  let careerStart := jsOrYear player.turned_pro 1990
  let careerEnd := jsOrYear player.retired env.currentYear
  if era.startsWith "\x7b" then
    match env.parseActiveYears era with
    | some (start, stop) => decide (careerStart ≤ stop) && decide (start ≤ careerEnd)
    | none => false
  else
    match era with
    | "2020s" => decide (2020 ≤ careerEnd)
    | "2010s" => decide (careerStart ≤ 2019) && decide (2010 ≤ careerEnd)
    | "2000s" => decide (careerStart ≤ 2009) && decide (2000 ≤ careerEnd)
    | "1990s" => decide (careerStart ≤ 1999) && decide (1990 ≤ careerEnd)
    | _ => false

/-- `validateCategory` of `lib/validation.ts`: dispatch on the category
type string, with the default branch returning `false` for an unknown
type.  The TypeScript wraps the switch in try/catch returning `false`;
the embedding is total, so every branch already yields a `Bool`. -/
def validateCategory (env : JsEnv) (player : Player) (category : Category) : Bool :=
  match category.type with
  | "country" => player.nationality == some category.value
  | "tournament" => validateTournamentFromData player category.value
  | "era" => validateEra env player category.value
  | "style" => player.plays_hand == some category.value
  | "ranking" => validateRankingFromData player category.value
  | "achievement" => validateAchievementFromData player category.value
  | _ => false

/-- Status tier of a validated cell. -/
inductive CellStatus where
  | safe
  | risky
  | impossible
deriving Repr, DecidableEq

/-- `checkCellHasSolution` of `app/api/daily-quiz/route.ts`.  The player
fetch is passed in as an `Except` (`error` models a supabase error or a
thrown exception, both of which the source answers with `return true`,
i.e. fail open); on a successful fetch the source scans the players and
returns `true` on the first one satisfying both predicates. -/
def checkCellHasSolution (env : JsEnv) (fetched : Except Unit (List Player))
    (rowCategory colCategory : Category) : Bool :=
  match fetched with
  | .error _ => true
  | .ok players =>
    players.any (fun p =>
      validateCategory env p rowCategory && validateCategory env p colCategory)

/-- Result record of the admin `validateCell`. -/
structure CellValidation where
  row : Nat
  col : Nat
  playerCount : Nat
  status : CellStatus
  samplePlayers : List String
deriving Repr, DecidableEq

/-- Tier thresholds used by the admin `validateCell`
(`quiz-templates/validate/route.ts`): count `0` is `impossible`, a count
below `3` is `risky`, anything else is `safe`. -/
def cellStatusOfCount (playerCount : Nat) : CellStatus :=
  if playerCount = 0 then .impossible
  else if playerCount < 3 then .risky
  else .safe

/-- `validateCell` of `quiz-templates/validate/route.ts`.  Note that both
failure paths of the source (the supabase error check and the
surrounding catch) construct a `playerCount: 0, status: 'impossible'`
result — this implementation fails closed, unlike
`checkCellHasSolution`. -/
def validateCell (env : JsEnv) (fetched : Except Unit (List Player))
    (rowCategory colCategory : Category) (row col : Nat) : CellValidation :=
  match fetched with
  | .error _ =>
    { row := row, col := col, playerCount := 0, status := .impossible, samplePlayers := [] }
  | .ok players =>
    let validPlayers :=
      (players.filter (fun p =>
        validateCategory env p rowCategory && validateCategory env p colCategory)).map
        (fun p => p.name)
    { row := row, col := col, playerCount := validPlayers.length,
      status := cellStatusOfCount validPlayers.length,
      samplePlayers := validPlayers.take 5 }

/-- Concrete category used in witnesses and counterexamples. -/
def cCountryUSA : Category :=
  { type := "country", id := "country_USA", label := "USA",
    description := "From USA", value := "USA" }

/-- Concrete category used in witnesses and counterexamples. -/
def cEra2020s : Category :=
  { type := "era", id := "era_2020s", label := "2020s",
    description := "Active in 2020s", value := "2020s" }

/-- Concrete environment used in witnesses and counterexamples. -/
def defaultEnv : JsEnv :=
  { parseActiveYears := fun _ => none, currentYear := 2025 }

/-! ## Grid Selector (`selectSmartCategories`)

The function appears verbatim twice in the sources
(`daily-quiz/route.ts` and `admin/suggest-categories/route.ts`); the two
copies are textually identical in logic, so a single embedding covers
both.  The sine-based hash `Math.floor(Math.abs(Math.sin((seed + offset)
* 9999) * 10000) % max)` is modelled as `sineRaw (seed + offset) % max`
where `sineRaw` stands for `floor(|sin(x * 9999)| * 10000)`; for an
integer modulus, flooring after `% max` agrees with flooring before it,
so the factorisation is exact. -/

/-- The deterministic pseudo-random index: hash of `seed + offset`,
reduced modulo the candidate-pool size. -/
def pseudoRandom (sineRaw : Int → Nat) (seed : Int) (max : Nat) (offset : Nat) : Nat :=
  sineRaw (seed + offset) % max

/-- The curated popular-country subset used by the safe/risky split. -/
def popularCountries : List String :=
  ["USA", "ESP", "SRB", "SUI", "GBR", "FRA", "GER", "AUS", "ARG", "RUS", "ITA", "CRO"]

/-- The safe-pool predicate of `selectSmartCategories`: popular countries,
the four Grand Slam tournaments (by label substring), every era and every
ranking; everything else is risky. -/
def isSafeCategory (c : Category) : Bool :=
  match c.type with
  | "country" => popularCountries.contains c.value
  | "tournament" =>
    c.label.containsSubstr "Wimbledon" || c.label.containsSubstr "US Open" ||
    c.label.containsSubstr "French Open" || c.label.containsSubstr "Australian Open"
  | "era" => true
  | "ranking" => true
  | _ => false

/-- Mutable state of the selection loops: the `selected` accumulator and
the two per-axis country flags. -/
structure SelSt where
  selected : List Category
  rowHasCountry : Bool
  colHasCountry : Bool
deriving Repr, DecidableEq

/-- The inner `while (attempts < 100 && pool.length > 0)` retry loop of a
selection slot, with `fuel` standing for `100 - attempts`. -/
def pickLoop (sineRaw : Int → Nat) (seed : Int) (offsetBase : Nat)
    (pool : List Category) (usedIds : List String) (fuel attempts : Nat) : Option Category :=
  match fuel with
  | 0 => none
  | fuel' + 1 =>
    if 0 < pool.length then
      let index := pseudoRandom sineRaw seed pool.length (offsetBase + attempts)
      match pool.get? index with
      | none => none
      | some candidate =>
        if usedIds.contains candidate.id then
          pickLoop sineRaw seed offsetBase pool usedIds fuel' (attempts + 1)
        else
          some candidate
    else none

/-- One selection slot: source pool (safe-only for the first two slots of
an axis, safe ++ risky for the third), the used-id / axis-country filter,
the widened fallback pool when the filtered pool is empty (the country
exclusion is kept), and the retry loop.  `axisIdx` is the per-axis slot
index `i`; `offsetSlot` is `i` for rows and `i + 3` for columns, matching
the `i * 100 + attempts` and `(i + 3) * 100 + attempts` offsets of the
source. -/
def slotPick (sineRaw : Int → Nat) (seed : Int)
    (allCategories safeCategories riskyCategories : List Category)
    (axisHasCountry : Bool) (usedIds : List String) (axisIdx offsetSlot : Nat) :
    Option Category :=
  let basePool := if axisIdx < 2 then safeCategories else safeCategories ++ riskyCategories
  let pred := fun c : Category =>
    !(usedIds.contains c.id) && !(c.type == "country" && axisHasCountry)
  let pool0 := basePool.filter pred
  let pool := if pool0.isEmpty then allCategories.filter pred else pool0
  pickLoop sineRaw seed (offsetSlot * 100) pool usedIds 100 0

/-- One iteration of the row-selection loop. -/
def rowSlotStep (sineRaw : Int → Nat) (seed : Int)
    (allCategories safeCategories riskyCategories : List Category)
    (i : Nat) (st : SelSt) : SelSt :=
  match slotPick sineRaw seed allCategories safeCategories riskyCategories
      st.rowHasCountry (st.selected.map (fun c => c.id)) i i with
  | none => st
  | some c =>
    { st with selected := st.selected ++ [c],
              rowHasCountry := st.rowHasCountry || (c.type == "country") }

/-- One iteration of the column-selection loop. -/
def colSlotStep (sineRaw : Int → Nat) (seed : Int)
    (allCategories safeCategories riskyCategories : List Category)
    (i : Nat) (st : SelSt) : SelSt :=
  match slotPick sineRaw seed allCategories safeCategories riskyCategories
      st.colHasCountry (st.selected.map (fun c => c.id)) i (i + 3) with
  | none => st
  | some c =>
    { st with selected := st.selected ++ [c],
              colHasCountry := st.colHasCountry || (c.type == "country") }

/-- State after the three row slots of `selectSmartCategories`. -/
def rowPhase (sineRaw : Int → Nat) (allCategories : List Category) (seed : Int) : SelSt :=
  let safeCategories := allCategories.filter isSafeCategory
  let riskyCategories := allCategories.filter (fun c => !isSafeCategory c)
  rowSlotStep sineRaw seed allCategories safeCategories riskyCategories 2
    (rowSlotStep sineRaw seed allCategories safeCategories riskyCategories 1
      (rowSlotStep sineRaw seed allCategories safeCategories riskyCategories 0
        { selected := [], rowHasCountry := false, colHasCountry := false }))

/-- State after all six slots of `selectSmartCategories`. -/
def selectAll (sineRaw : Int → Nat) (allCategories : List Category) (seed : Int) : SelSt :=
  let safeCategories := allCategories.filter isSafeCategory
  let riskyCategories := allCategories.filter (fun c => !isSafeCategory c)
  colSlotStep sineRaw seed allCategories safeCategories riskyCategories 2
    (colSlotStep sineRaw seed allCategories safeCategories riskyCategories 1
      (colSlotStep sineRaw seed allCategories safeCategories riskyCategories 0
        (rowPhase sineRaw allCategories seed)))

/-- `selectSmartCategories`: the ordered list of picked categories (up to
six; fewer when a slot finds no candidate). -/
def selectSmartCategories (sineRaw : Int → Nat) (allCategories : List Category)
    (seed : Int) : List Category :=
  (selectAll sineRaw allCategories seed).selected

/-- A 3x3 grid: three row categories and three column categories. -/
structure DailyQuiz where
  rows : List Category
  columns : List Category
deriving Repr, DecidableEq

/-- How both call sites turn a selection into a grid:
`rows = selected.slice(0, 3)`, `columns = selected.slice(3, 6)`. -/
def gridOfSelection (selected : List Category) : DailyQuiz :=
  { rows := selected.take 3, columns := (selected.drop 3).take 3 }

/-- Number of country categories in a list. -/
def countCountries (l : List Category) : Nat :=
  l.countP (fun c => c.type == "country")

/-- Concrete category used in witnesses and counterexamples. -/
def cCountryESP : Category :=
  { type := "country", id := "country_ESP", label := "Spain",
    description := "From Spain", value := "ESP" }

/-- A minimal pool exercising the axis-exclusivity rule: two popular
countries and one era.  Spec section 8 demands that the selector handle
small pools by widening, never by breaking the one-country-per-axis
rule. -/
def degeneratePool : List Category := [cCountryUSA, cCountryESP, cEra2020s]

/-- The retry loop on an empty pool returns nothing. -/
theorem pickLoop_empty (sineRaw : Int → Nat) (seed : Int) (ob : Nat)
    (usedIds : List String) (fuel attempts : Nat) :
    pickLoop sineRaw seed ob [] usedIds fuel attempts = none := by
  cases fuel <;> rfl

/-- One unfolding of the retry loop. -/
theorem pickLoop_succ (sineRaw : Int → Nat) (seed : Int) (ob : Nat)
    (pool : List Category) (usedIds : List String) (fuel attempts : Nat) :
    pickLoop sineRaw seed ob pool usedIds (fuel + 1) attempts =
      (if 0 < pool.length then
        match pool.get? (pseudoRandom sineRaw seed pool.length (ob + attempts)) with
        | none => none
        | some candidate =>
          if usedIds.contains candidate.id then
            pickLoop sineRaw seed ob pool usedIds fuel (attempts + 1)
          else some candidate
      else none) := rfl

/-- When the first sampled candidate is not yet used — which is always
the case in the source, since the pool is pre-filtered on `usedIds` —
the retry loop returns it on the first attempt. -/
theorem pickLoop_first (sineRaw : Int → Nat) (seed : Int) (ob : Nat)
    (pool : List Category) (usedIds : List String) (c : Category)
    (h : pool.get? (pseudoRandom sineRaw seed pool.length ob) = some c)
    (hu : usedIds.contains c.id = false) :
    pickLoop sineRaw seed ob pool usedIds 100 0 = some c := by
  have hpos : 0 < pool.length := by
    rcases pool with _ | ⟨a, l⟩
    · simp [pseudoRandom] at h
    · simp
  rw [show (100 : Nat) = 99 + 1 from rfl, pickLoop_succ, if_pos hpos, Nat.add_zero, h]
  simp only [hu, Bool.false_eq_true, if_false]


/-! ## Generation Loop, Resolution Chain and Cache Store
(`app/api/daily-quiz/route.ts`)

The `GET` handler's database reads are passed in as table states: the
cache table as a `List CachedQuiz`, the template table as a
`List Template`.  The quiz generator `generateDailyCategories` performs
its own pool fetch and then calls the selector; for the loop it is an
opaque deterministic function `quizOf : Int → DailyQuiz` of the seed, and
the grid validator `validateQuizHasSolutions` is likewise an opaque
predicate on the produced grid.  The handler's test-mode date jitter is
not modelled: `dateNumber` is the already-computed base seed. -/

/-- A curated quiz template row (`quiz_templates`). -/
structure Template where
  id : String
  title : String
  description : Option String
  difficulty : Option String
  row_categories : List Category
  col_categories : List Category
  scheduled_date : Option String
  is_published : Bool
deriving Repr, DecidableEq

/-- The response JSON of the daily-quiz `GET` handler (union of the
fields of the cached, manual, successful and degraded responses; the
debug payload and `generatedAt` echo are not modelled). -/
structure QuizResponse where
  success : Bool
  date : String
  source : Option String
  title : Option String
  description : Option String
  difficulty : Option String
  categories : Option DailyQuiz
  seed : Option Int
  attempts : Option Nat
  message : Option String
  warning : Option String
  cached : Bool
deriving Repr, DecidableEq

/-- A row of `cached_daily_quizzes`.  Instants are integres measured in
hours, so the 24-hour TTL of `cacheQuiz` is `now + 24`. -/
structure CachedQuiz where
  date : String
  quiz_source : String
  quiz_template_id : Option String
  quiz_data : QuizResponse
  generated_at : Int
  expires_at : Int
deriving Repr, DecidableEq

/-- `getCachedQuiz`: select the row for `date` with
`expires_at > now` (strict), with supabase `.single()` semantics —
a row is returned only when exactly one matches; an error (zero or
several rows) is caught and answered with `null`. -/
def getCachedQuiz (cache : List CachedQuiz) (date : String) (now : Int) :
    Option CachedQuiz :=
  match cache.filter (fun e => e.date == date && decide (now < e.expires_at)) with
  | [e] => some e
  | _ => none

/-- `cacheQuiz`: upsert on the `date` key — replace the existing row for
that date if there is one, append a fresh row otherwise; the new row
expires 24 hours from now. -/
def cacheQuiz (cache : List CachedQuiz) (date : String) (source : String)
    (quizData : QuizResponse) (templateId : Option String) (now : Int) :
    List CachedQuiz :=
  let entry : CachedQuiz :=
    { date := date, quiz_source := source, quiz_template_id := templateId,
      quiz_data := quizData, generated_at := now, expires_at := now + 24 }
  if cache.any (fun e => e.date == date) then
    cache.map (fun e => if e.date == date then entry else e)
  else
    cache ++ [entry]

/-- `getManualQuizForDate`: the published template scheduled for `date`,
again with `.single()` semantics. -/
def getManualQuizForDate (templates : List Template) (date : String) :
    Option Template :=
  match templates.filter (fun t => t.scheduled_date == some date && t.is_published) with
  | [t] => some t
  | _ => none

/-- Outcome of the generation `while` loop: final attempt counter,
validity flag, the seed of the last attempt (whose grid is the
last-produced quiz) and the seeds of all attempts in order. -/
structure LoopOut where
  attempts : Nat
  isValid : Bool
  lastSeed : Int
  seeds : List Int
deriving Repr, DecidableEq

/-- The body of `while (!isValid && attempts < 20)`, with `fuel`
standing for `20 - attempts`: increment the counter, derive
`currentSeed = dateNumber + (attempts - 1) * 7919`, generate and
validate. -/
def generationLoopGo (validate : DailyQuiz → Bool) (quizOf : Int → DailyQuiz)
    (base : Int) (attempts fuel : Nat) (lastSeed : Int) (seeds : List Int) : LoopOut :=
  match fuel with
  | 0 => { attempts := attempts, isValid := false, lastSeed := lastSeed, seeds := seeds }
  | fuel' + 1 =>
    let a := attempts + 1
    let currentSeed := base + ((a - 1 : Nat) : Int) * 7919
    if validate (quizOf currentSeed) then
      { attempts := a, isValid := true, lastSeed := currentSeed,
        seeds := seeds ++ [currentSeed] }
    else
      generationLoopGo validate quizOf base a fuel' currentSeed (seeds ++ [currentSeed])

/-- The generation loop of the `GET` handler: at most 20 attempts
starting from the base seed. -/
def generationLoop (validate : DailyQuiz → Bool) (quizOf : Int → DailyQuiz)
    (base : Int) : LoopOut :=
  generationLoopGo validate quizOf base 0 20 base []

/-- The cached-path response: the stored payload with `cached: true`. -/
def cachedResponse (cq : CachedQuiz) : QuizResponse :=
  { cq.quiz_data with cached := true }

/-- The manual-quiz response built from a published template. -/
def manualQuizResponse (today : String) (mq : Template) : QuizResponse :=
  { success := true, date := today, source := some "manual",
    title := some mq.title, description := mq.description,
    difficulty := mq.difficulty,
    categories := some { rows := mq.row_categories, columns := mq.col_categories },
    seed := none, attempts := none,
    message := some ("Manual quiz: " ++ mq.title), warning := none, cached := false }

/-- The degraded response returned when all 20 attempts fail: still a
success response, carrying the last-produced grid, the literal attempt
count 20 and the warning string. -/
def degradedResponse (today : String) (quiz : DailyQuiz) (dateNumber : Int) :
    QuizResponse :=
  { success := true, date := today, source := none, title := none,
    description := none, difficulty := none, categories := some quiz,
    seed := some dateNumber, attempts := some 20,
    message := some "Quiz generated but may have impossible cells",
    warning := some "Validation failed after 20 attempts", cached := false }

/-- The response for a successfully validated generated quiz. -/
def successResponse (today : String) (quiz : DailyQuiz) (dateNumber : Int)
    (attempts : Nat) : QuizResponse :=
  { success := true, date := today, source := none, title := none,
    description := none, difficulty := none, categories := some quiz,
    seed := some (dateNumber + ((attempts - 1 : Nat) : Int) * 7919),
    attempts := some attempts,
    message := some ("Daily quiz generated for " ++ today),
    warning := none, cached := false }

/-- Result of one `GET` request: the JSON response and the cache table
state after any write the handler performed. -/
structure GetResult where
  response : QuizResponse
  cache : List CachedQuiz
deriving Repr, DecidableEq

/-- The resolution chain of the daily-quiz `GET` handler: cache lookup
(skipped under `bypassCache` or `testMode`), then the published-template
lookup (skipped under `testMode`, result cached unless `bypassCache`),
then the generation loop (`skipValidation` accepts the first grid).  A
successfully validated generated quiz is cached unless `testMode` or
`bypassCache`; the degraded path returns without writing. -/
def dailyQuizGET (cache : List CachedQuiz) (templates : List Template)
    (quizOf : Int → DailyQuiz) (validate : DailyQuiz → Bool)
    (today : String) (dateNumber now : Int)
    (testMode bypassCache skipValidation : Bool) : GetResult :=
  match (if !bypassCache && !testMode then getCachedQuiz cache today now else none) with
  | some cq => { response := cachedResponse cq, cache := cache }
  | none =>
    match (if !testMode then getManualQuizForDate templates today else none) with
    | some mq =>
      let quizData := manualQuizResponse today mq
      let cache' :=
        if !bypassCache then cacheQuiz cache today "manual" quizData (some mq.id) now
        else cache
      { response := quizData, cache := cache' }
    | none =>
      let lo :=
        if skipValidation then
          { attempts := 1, isValid := true, lastSeed := dateNumber,
            seeds := [dateNumber] : LoopOut }
        else generationLoop validate quizOf dateNumber
      if lo.isValid then
        let resp := successResponse today (quizOf lo.lastSeed) dateNumber lo.attempts
        let cache' :=
          if !testMode && !bypassCache then cacheQuiz cache today "algorithmic" resp none now
          else cache
        { response := resp, cache := cache' }
      else
        { response := degradedResponse today (quizOf lo.lastSeed) dateNumber, cache := cache }

/-! ## Template publish / unpublish
(`app/api/admin/quiz-templates/[id]/publish/route.ts`)

The `updated_at` timestamp bump is not modelled; every other effect on
the two tables is. -/

/-- Outcome of the publish endpoint: the 404, the two 400 rejections,
the 409 conflict carrying the conflicting template's title, and
success. -/
inductive PublishOutcome where
  | notFound
  | alreadyPublished
  | missingDate
  | conflict (title : String)
  | ok
deriving Repr, DecidableEq

/-- Outcome of the unpublish endpoint. -/
inductive UnpublishOutcome where
  | notFound
  | notPublished
  | ok
deriving Repr, DecidableEq

/-- The publish `POST` handler: fetch the template; reject when already
published or when it has no scheduled date; reject with a conflict named
after the other template when exactly one other published template holds
the same date (`.single()` semantics); otherwise flip `is_published` and
delete every cache row for that date. -/
def publishTemplate (templates : List Template) (cache : List CachedQuiz)
    (id : String) : PublishOutcome × List Template × List CachedQuiz :=
  match templates.find? (fun t => t.id == id) with
  | none => (.notFound, templates, cache)
  | some quiz =>
    if quiz.is_published then (.alreadyPublished, templates, cache)
    else
      match quiz.scheduled_date with
      | none => (.missingDate, templates, cache)
      | some d =>
        match templates.filter (fun t =>
            t.scheduled_date == some d && t.is_published && !(t.id == id)) with
        | [existing] => (.conflict existing.title, templates, cache)
        | _ =>
          let templates' := templates.map (fun t =>
            if t.id == id then { t with is_published := true } else t)
          let cache' := cache.filter (fun e => !(e.date == d))
          (.ok, templates', cache')

/-- The unpublish `DELETE` handler: fetch the template; reject when it
is not published; otherwise flip `is_published` off and, when it has a
scheduled date, delete that date's cache rows. -/
def unpublishTemplate (templates : List Template) (cache : List CachedQuiz)
    (id : String) : UnpublishOutcome × List Template × List CachedQuiz :=
  match templates.find? (fun t => t.id == id) with
  | none => (.notFound, templates, cache)
  | some quiz =>
    if !quiz.is_published then (.notPublished, templates, cache)
    else
      let templates' := templates.map (fun t =>
        if t.id == id then { t with is_published := false } else t)
      let cache' :=
        match quiz.scheduled_date with
        | some d => cache.filter (fun e => !(e.date == d))
        | none => cache
      (.ok, templates', cache')

/-- C1 (counterexample): at a concrete input with a failed player fetch,
the admin `validateCell` reports the cell as `impossible` with count 0 —
it fails CLOSED, refuting the claim that both cell-validation
implementations treat a fetch failure as satisfied/unknown. -/
theorem validateCell_error_fails_closed :
    (validateCell defaultEnv (Except.error ()) cCountryUSA cEra2020s 0 0).status
        = CellStatus.impossible ∧
    (validateCell defaultEnv (Except.error ()) cCountryUSA cEra2020s 0 0).playerCount = 0 :=
  ⟨rfl, rfl⟩

/-- C1 (amended): on a failed entity fetch the Generation Loop's
`checkCellHasSolution` fails open (the cell counts as having a
solution), while the admin validate endpoint's `validateCell` fails
closed (the cell is reported impossible with count 0). -/
theorem cellValidators_error_split (env : JsEnv) (rowCategory colCategory : Category)
    (row col : Nat) :
    checkCellHasSolution env (Except.error ()) rowCategory colCategory = true ∧
    (validateCell env (Except.error ()) rowCategory colCategory row col).status
        = CellStatus.impossible ∧
    (validateCell env (Except.error ()) rowCategory colCategory row col).playerCount = 0 :=
  ⟨rfl, rfl, rfl⟩

/-- C3: the Grid Selector is a deterministic pure function of the hash
table, the category pool and the seed: the embedding shows it reads no
clock, no ambient randomness and no call counter (no such argument
exists), so two calls on identical inputs return the identical ordered
selection.  The same definition covers both textually identical copies
of `selectSmartCategories` in the sources. -/
theorem selectSmartCategories_deterministic (sineRaw : Int → Nat)
    (pool : List Category) (seed : Int) :
    selectSmartCategories sineRaw pool seed = selectSmartCategories sineRaw pool seed := rfl

/-- Trace of the selector on the degenerate pool when the first draw
lands on index 0: rows pick USA then the era, the third row slot finds
no candidate, and the first column slot picks Spain. -/
theorem degenerate_case_usa_first (sineRaw : Int → Nat) (seed : Int) (h0 : sineRaw seed % 3 = 0) :
    selectSmartCategories sineRaw degeneratePool seed =
      [cCountryUSA, cEra2020s, cCountryESP] := by
  have hsafe : degeneratePool.filter isSafeCategory = degeneratePool := rfl
  have hrisky : degeneratePool.filter (fun c => !isSafeCategory c) = [] := rfl
  -- row slot 0 picks cCountryUSA
  have hidx0 : pseudoRandom sineRaw seed degeneratePool.length 0 = 0 := by
    simpa [pseudoRandom, degeneratePool] using h0
  have hget0 : degeneratePool.get? (pseudoRandom sineRaw seed degeneratePool.length 0)
      = some cCountryUSA := by rw [hidx0]; rfl
  have pick0 : pickLoop sineRaw seed 0 degeneratePool [] 100 0 = some cCountryUSA :=
    pickLoop_first sineRaw seed 0 degeneratePool [] cCountryUSA hget0 rfl
  have r0 : rowSlotStep sineRaw seed degeneratePool degeneratePool [] 0
        ⟨[], false, false⟩ = ⟨[cCountryUSA], true, false⟩ := by
    have e : rowSlotStep sineRaw seed degeneratePool degeneratePool [] 0 ⟨[], false, false⟩
        = match pickLoop sineRaw seed 0 degeneratePool [] 100 0 with
          | none => (⟨[], false, false⟩ : SelSt)
          | some c => ⟨[] ++ [c], false || (c.type == "country"), false⟩ := rfl
    rw [e, pick0]
    rfl
  -- row slot 1: filtered pool is [cEra2020s], forced pick
  have pick1 : pickLoop sineRaw seed 100 [cEra2020s] ["country_USA"] 100 0
      = some cEra2020s := by
    apply pickLoop_first
    · show [cEra2020s].get? (sineRaw (seed + (100 : Nat)) % 1) = some cEra2020s
      simp [Nat.mod_one]
    · rfl
  have r1 : rowSlotStep sineRaw seed degeneratePool degeneratePool [] 1
        ⟨[cCountryUSA], true, false⟩ = ⟨[cCountryUSA, cEra2020s], true, false⟩ := by
    have e : rowSlotStep sineRaw seed degeneratePool degeneratePool [] 1
          ⟨[cCountryUSA], true, false⟩
        = match pickLoop sineRaw seed 100 [cEra2020s] ["country_USA"] 100 0 with
          | none => (⟨[cCountryUSA], true, false⟩ : SelSt)
          | some c => ⟨[cCountryUSA] ++ [c], true || (c.type == "country"), false⟩ := rfl
    rw [e, pick1]
    rfl
  -- row slot 2: filtered pool and fallback pool are both empty
  have r2 : rowSlotStep sineRaw seed degeneratePool degeneratePool [] 2
        ⟨[cCountryUSA, cEra2020s], true, false⟩
      = ⟨[cCountryUSA, cEra2020s], true, false⟩ := by
    have e : rowSlotStep sineRaw seed degeneratePool degeneratePool [] 2
          ⟨[cCountryUSA, cEra2020s], true, false⟩
        = match pickLoop sineRaw seed 200 [] ["country_USA", "era_2020s"] 100 0 with
          | none => (⟨[cCountryUSA, cEra2020s], true, false⟩ : SelSt)
          | some c => ⟨[cCountryUSA, cEra2020s] ++ [c], true || (c.type == "country"), false⟩ := rfl
    rw [e, pickLoop_empty]
  -- column slot 0: filtered pool is [cCountryESP], forced pick
  have pick3 : pickLoop sineRaw seed 300 [cCountryESP] ["country_USA", "era_2020s"] 100 0
      = some cCountryESP := by
    apply pickLoop_first
    · show [cCountryESP].get? (sineRaw (seed + (300 : Nat)) % 1) = some cCountryESP
      simp [Nat.mod_one]
    · rfl
  have c0 : colSlotStep sineRaw seed degeneratePool degeneratePool [] 0
        ⟨[cCountryUSA, cEra2020s], true, false⟩
      = ⟨[cCountryUSA, cEra2020s, cCountryESP], true, true⟩ := by
    have e : colSlotStep sineRaw seed degeneratePool degeneratePool [] 0
          ⟨[cCountryUSA, cEra2020s], true, false⟩
        = match pickLoop sineRaw seed 300 [cCountryESP] ["country_USA", "era_2020s"] 100 0 with
          | none => (⟨[cCountryUSA, cEra2020s], true, false⟩ : SelSt)
          | some c => ⟨[cCountryUSA, cEra2020s] ++ [c], true, false || (c.type == "country")⟩ := rfl
    rw [e, pick3]
    rfl
  -- column slots 1 and 2: both pools empty
  have c1 : colSlotStep sineRaw seed degeneratePool degeneratePool [] 1
        ⟨[cCountryUSA, cEra2020s, cCountryESP], true, true⟩
      = ⟨[cCountryUSA, cEra2020s, cCountryESP], true, true⟩ := by
    have e : colSlotStep sineRaw seed degeneratePool degeneratePool [] 1
          ⟨[cCountryUSA, cEra2020s, cCountryESP], true, true⟩
        = match pickLoop sineRaw seed 400 [] ["country_USA", "era_2020s", "country_ESP"] 100 0 with
          | none => (⟨[cCountryUSA, cEra2020s, cCountryESP], true, true⟩ : SelSt)
          | some c => ⟨[cCountryUSA, cEra2020s, cCountryESP] ++ [c], true,
              true || (c.type == "country")⟩ := rfl
    rw [e, pickLoop_empty]
  have c2 : colSlotStep sineRaw seed degeneratePool degeneratePool [] 2
        ⟨[cCountryUSA, cEra2020s, cCountryESP], true, true⟩
      = ⟨[cCountryUSA, cEra2020s, cCountryESP], true, true⟩ := by
    have e : colSlotStep sineRaw seed degeneratePool degeneratePool [] 2
          ⟨[cCountryUSA, cEra2020s, cCountryESP], true, true⟩
        = match pickLoop sineRaw seed 500 [] ["country_USA", "era_2020s", "country_ESP"] 100 0 with
          | none => (⟨[cCountryUSA, cEra2020s, cCountryESP], true, true⟩ : SelSt)
          | some c => ⟨[cCountryUSA, cEra2020s, cCountryESP] ++ [c], true,
              true || (c.type == "country")⟩ := rfl
    rw [e, pickLoop_empty]
  show (selectAll sineRaw degeneratePool seed).selected = _
  rw [show selectAll sineRaw degeneratePool seed
      = colSlotStep sineRaw seed degeneratePool degeneratePool [] 2
          (colSlotStep sineRaw seed degeneratePool degeneratePool [] 1
            (colSlotStep sineRaw seed degeneratePool degeneratePool [] 0
              (rowSlotStep sineRaw seed degeneratePool degeneratePool [] 2
                (rowSlotStep sineRaw seed degeneratePool degeneratePool [] 1
                  (rowSlotStep sineRaw seed degeneratePool degeneratePool [] 0
                    ⟨[], false, false⟩))))) from rfl]
  rw [r0, r1, r2, c0, c1, c2]


/-- Trace of the selector on the degenerate pool when the first draw
lands on index 1: symmetric to the index-0 case with the countries
swapped. -/
theorem degenerate_case_esp_first (sineRaw : Int → Nat) (seed : Int) (h0 : sineRaw seed % 3 = 1) :
    selectSmartCategories sineRaw degeneratePool seed =
      [cCountryESP, cEra2020s, cCountryUSA] := by
  have hidx0 : pseudoRandom sineRaw seed degeneratePool.length 0 = 1 := by
    simpa [pseudoRandom, degeneratePool] using h0
  have hget0 : degeneratePool.get? (pseudoRandom sineRaw seed degeneratePool.length 0)
      = some cCountryESP := by rw [hidx0]; rfl
  have pick0 : pickLoop sineRaw seed 0 degeneratePool [] 100 0 = some cCountryESP :=
    pickLoop_first sineRaw seed 0 degeneratePool [] cCountryESP hget0 rfl
  have r0 : rowSlotStep sineRaw seed degeneratePool degeneratePool [] 0
        ⟨[], false, false⟩ = ⟨[cCountryESP], true, false⟩ := by
    have e : rowSlotStep sineRaw seed degeneratePool degeneratePool [] 0 ⟨[], false, false⟩
        = match pickLoop sineRaw seed 0 degeneratePool [] 100 0 with
          | none => (⟨[], false, false⟩ : SelSt)
          | some c => ⟨[] ++ [c], false || (c.type == "country"), false⟩ := rfl
    rw [e, pick0]
    rfl
  have pick1 : pickLoop sineRaw seed 100 [cEra2020s] ["country_ESP"] 100 0
      = some cEra2020s := by
    apply pickLoop_first
    · show [cEra2020s].get? (sineRaw (seed + (100 : Nat)) % 1) = some cEra2020s
      simp [Nat.mod_one]
    · rfl
  have r1 : rowSlotStep sineRaw seed degeneratePool degeneratePool [] 1
        ⟨[cCountryESP], true, false⟩ = ⟨[cCountryESP, cEra2020s], true, false⟩ := by
    have e : rowSlotStep sineRaw seed degeneratePool degeneratePool [] 1
          ⟨[cCountryESP], true, false⟩
        = match pickLoop sineRaw seed 100 [cEra2020s] ["country_ESP"] 100 0 with
          | none => (⟨[cCountryESP], true, false⟩ : SelSt)
          | some c => ⟨[cCountryESP] ++ [c], true || (c.type == "country"), false⟩ := rfl
    rw [e, pick1]
    rfl
  have r2 : rowSlotStep sineRaw seed degeneratePool degeneratePool [] 2
        ⟨[cCountryESP, cEra2020s], true, false⟩
      = ⟨[cCountryESP, cEra2020s], true, false⟩ := by
    have e : rowSlotStep sineRaw seed degeneratePool degeneratePool [] 2
          ⟨[cCountryESP, cEra2020s], true, false⟩
        = match pickLoop sineRaw seed 200 [] ["country_ESP", "era_2020s"] 100 0 with
          | none => (⟨[cCountryESP, cEra2020s], true, false⟩ : SelSt)
          | some c => ⟨[cCountryESP, cEra2020s] ++ [c], true || (c.type == "country"), false⟩ := rfl
    rw [e, pickLoop_empty]
  have pick3 : pickLoop sineRaw seed 300 [cCountryUSA] ["country_ESP", "era_2020s"] 100 0
      = some cCountryUSA := by
    apply pickLoop_first
    · show [cCountryUSA].get? (sineRaw (seed + (300 : Nat)) % 1) = some cCountryUSA
      simp [Nat.mod_one]
    · rfl
  have c0 : colSlotStep sineRaw seed degeneratePool degeneratePool [] 0
        ⟨[cCountryESP, cEra2020s], true, false⟩
      = ⟨[cCountryESP, cEra2020s, cCountryUSA], true, true⟩ := by
    have e : colSlotStep sineRaw seed degeneratePool degeneratePool [] 0
          ⟨[cCountryESP, cEra2020s], true, false⟩
        = match pickLoop sineRaw seed 300 [cCountryUSA] ["country_ESP", "era_2020s"] 100 0 with
          | none => (⟨[cCountryESP, cEra2020s], true, false⟩ : SelSt)
          | some c => ⟨[cCountryESP, cEra2020s] ++ [c], true, false || (c.type == "country")⟩ := rfl
    rw [e, pick3]
    rfl
  have c1 : colSlotStep sineRaw seed degeneratePool degeneratePool [] 1
        ⟨[cCountryESP, cEra2020s, cCountryUSA], true, true⟩
      = ⟨[cCountryESP, cEra2020s, cCountryUSA], true, true⟩ := by
    have e : colSlotStep sineRaw seed degeneratePool degeneratePool [] 1
          ⟨[cCountryESP, cEra2020s, cCountryUSA], true, true⟩
        = match pickLoop sineRaw seed 400 [] ["country_ESP", "era_2020s", "country_USA"] 100 0 with
          | none => (⟨[cCountryESP, cEra2020s, cCountryUSA], true, true⟩ : SelSt)
          | some c => ⟨[cCountryESP, cEra2020s, cCountryUSA] ++ [c], true,
              true || (c.type == "country")⟩ := rfl
    rw [e, pickLoop_empty]
  have c2 : colSlotStep sineRaw seed degeneratePool degeneratePool [] 2
        ⟨[cCountryESP, cEra2020s, cCountryUSA], true, true⟩
      = ⟨[cCountryESP, cEra2020s, cCountryUSA], true, true⟩ := by
    have e : colSlotStep sineRaw seed degeneratePool degeneratePool [] 2
          ⟨[cCountryESP, cEra2020s, cCountryUSA], true, true⟩
        = match pickLoop sineRaw seed 500 [] ["country_ESP", "era_2020s", "country_USA"] 100 0 with
          | none => (⟨[cCountryESP, cEra2020s, cCountryUSA], true, true⟩ : SelSt)
          | some c => ⟨[cCountryESP, cEra2020s, cCountryUSA] ++ [c], true,
              true || (c.type == "country")⟩ := rfl
    rw [e, pickLoop_empty]
  show (selectAll sineRaw degeneratePool seed).selected = _
  rw [show selectAll sineRaw degeneratePool seed
      = colSlotStep sineRaw seed degeneratePool degeneratePool [] 2
          (colSlotStep sineRaw seed degeneratePool degeneratePool [] 1
            (colSlotStep sineRaw seed degeneratePool degeneratePool [] 0
              (rowSlotStep sineRaw seed degeneratePool degeneratePool [] 2
                (rowSlotStep sineRaw seed degeneratePool degeneratePool [] 1
                  (rowSlotStep sineRaw seed degeneratePool degeneratePool [] 0
                    ⟨[], false, false⟩))))) from rfl]
  rw [r0, r1, r2, c0, c1, c2]

/-- Trace of the selector on the degenerate pool when the first draw
lands on the era and the second on USA. -/
theorem degenerate_case_era_usa (sineRaw : Int → Nat) (seed : Int) (h0 : sineRaw seed % 3 = 2)
    (h1 : sineRaw (seed + 100) % 2 = 0) :
    selectSmartCategories sineRaw degeneratePool seed =
      [cEra2020s, cCountryUSA, cCountryESP] := by
  have hidx0 : pseudoRandom sineRaw seed degeneratePool.length 0 = 2 := by
    simpa [pseudoRandom, degeneratePool] using h0
  have hget0 : degeneratePool.get? (pseudoRandom sineRaw seed degeneratePool.length 0)
      = some cEra2020s := by rw [hidx0]; rfl
  have pick0 : pickLoop sineRaw seed 0 degeneratePool [] 100 0 = some cEra2020s :=
    pickLoop_first sineRaw seed 0 degeneratePool [] cEra2020s hget0 rfl
  have r0 : rowSlotStep sineRaw seed degeneratePool degeneratePool [] 0
        ⟨[], false, false⟩ = ⟨[cEra2020s], false, false⟩ := by
    have e : rowSlotStep sineRaw seed degeneratePool degeneratePool [] 0 ⟨[], false, false⟩
        = match pickLoop sineRaw seed 0 degeneratePool [] 100 0 with
          | none => (⟨[], false, false⟩ : SelSt)
          | some c => ⟨[] ++ [c], false || (c.type == "country"), false⟩ := rfl
    rw [e, pick0]
    rfl
  have hidx1 : pseudoRandom sineRaw seed ([cCountryUSA, cCountryESP].length) 100 = 0 := by
    simpa [pseudoRandom] using h1
  have hget1 : [cCountryUSA, cCountryESP].get?
      (pseudoRandom sineRaw seed ([cCountryUSA, cCountryESP].length) 100)
      = some cCountryUSA := by rw [hidx1]; rfl
  have pick1 : pickLoop sineRaw seed 100 [cCountryUSA, cCountryESP] ["era_2020s"] 100 0
      = some cCountryUSA :=
    pickLoop_first sineRaw seed 100 [cCountryUSA, cCountryESP] ["era_2020s"] cCountryUSA hget1 rfl
  have r1 : rowSlotStep sineRaw seed degeneratePool degeneratePool [] 1
        ⟨[cEra2020s], false, false⟩ = ⟨[cEra2020s, cCountryUSA], true, false⟩ := by
    have e : rowSlotStep sineRaw seed degeneratePool degeneratePool [] 1
          ⟨[cEra2020s], false, false⟩
        = match pickLoop sineRaw seed 100 [cCountryUSA, cCountryESP] ["era_2020s"] 100 0 with
          | none => (⟨[cEra2020s], false, false⟩ : SelSt)
          | some c => ⟨[cEra2020s] ++ [c], false || (c.type == "country"), false⟩ := rfl
    rw [e, pick1]
    rfl
  have r2 : rowSlotStep sineRaw seed degeneratePool degeneratePool [] 2
        ⟨[cEra2020s, cCountryUSA], true, false⟩
      = ⟨[cEra2020s, cCountryUSA], true, false⟩ := by
    have e : rowSlotStep sineRaw seed degeneratePool degeneratePool [] 2
          ⟨[cEra2020s, cCountryUSA], true, false⟩
        = match pickLoop sineRaw seed 200 [] ["era_2020s", "country_USA"] 100 0 with
          | none => (⟨[cEra2020s, cCountryUSA], true, false⟩ : SelSt)
          | some c => ⟨[cEra2020s, cCountryUSA] ++ [c], true || (c.type == "country"), false⟩ := rfl
    rw [e, pickLoop_empty]
  have pick3 : pickLoop sineRaw seed 300 [cCountryESP] ["era_2020s", "country_USA"] 100 0
      = some cCountryESP := by
    apply pickLoop_first
    · show [cCountryESP].get? (sineRaw (seed + (300 : Nat)) % 1) = some cCountryESP
      simp [Nat.mod_one]
    · rfl
  have c0 : colSlotStep sineRaw seed degeneratePool degeneratePool [] 0
        ⟨[cEra2020s, cCountryUSA], true, false⟩
      = ⟨[cEra2020s, cCountryUSA, cCountryESP], true, true⟩ := by
    have e : colSlotStep sineRaw seed degeneratePool degeneratePool [] 0
          ⟨[cEra2020s, cCountryUSA], true, false⟩
        = match pickLoop sineRaw seed 300 [cCountryESP] ["era_2020s", "country_USA"] 100 0 with
          | none => (⟨[cEra2020s, cCountryUSA], true, false⟩ : SelSt)
          | some c => ⟨[cEra2020s, cCountryUSA] ++ [c], true, false || (c.type == "country")⟩ := rfl
    rw [e, pick3]
    rfl
  have c1 : colSlotStep sineRaw seed degeneratePool degeneratePool [] 1
        ⟨[cEra2020s, cCountryUSA, cCountryESP], true, true⟩
      = ⟨[cEra2020s, cCountryUSA, cCountryESP], true, true⟩ := by
    have e : colSlotStep sineRaw seed degeneratePool degeneratePool [] 1
          ⟨[cEra2020s, cCountryUSA, cCountryESP], true, true⟩
        = match pickLoop sineRaw seed 400 [] ["era_2020s", "country_USA", "country_ESP"] 100 0 with
          | none => (⟨[cEra2020s, cCountryUSA, cCountryESP], true, true⟩ : SelSt)
          | some c => ⟨[cEra2020s, cCountryUSA, cCountryESP] ++ [c], true,
              true || (c.type == "country")⟩ := rfl
    rw [e, pickLoop_empty]
  have c2 : colSlotStep sineRaw seed degeneratePool degeneratePool [] 2
        ⟨[cEra2020s, cCountryUSA, cCountryESP], true, true⟩
      = ⟨[cEra2020s, cCountryUSA, cCountryESP], true, true⟩ := by
    have e : colSlotStep sineRaw seed degeneratePool degeneratePool [] 2
          ⟨[cEra2020s, cCountryUSA, cCountryESP], true, true⟩
        = match pickLoop sineRaw seed 500 [] ["era_2020s", "country_USA", "country_ESP"] 100 0 with
          | none => (⟨[cEra2020s, cCountryUSA, cCountryESP], true, true⟩ : SelSt)
          | some c => ⟨[cEra2020s, cCountryUSA, cCountryESP] ++ [c], true,
              true || (c.type == "country")⟩ := rfl
    rw [e, pickLoop_empty]
  show (selectAll sineRaw degeneratePool seed).selected = _
  rw [show selectAll sineRaw degeneratePool seed
      = colSlotStep sineRaw seed degeneratePool degeneratePool [] 2
          (colSlotStep sineRaw seed degeneratePool degeneratePool [] 1
            (colSlotStep sineRaw seed degeneratePool degeneratePool [] 0
              (rowSlotStep sineRaw seed degeneratePool degeneratePool [] 2
                (rowSlotStep sineRaw seed degeneratePool degeneratePool [] 1
                  (rowSlotStep sineRaw seed degeneratePool degeneratePool [] 0
                    ⟨[], false, false⟩))))) from rfl]
  rw [r0, r1, r2, c0, c1, c2]

/-- Trace of the selector on the degenerate pool when the first draw
lands on the era and the second on Spain. -/
theorem degenerate_case_era_esp (sineRaw : Int → Nat) (seed : Int) (h0 : sineRaw seed % 3 = 2)
    (h1 : sineRaw (seed + 100) % 2 = 1) :
    selectSmartCategories sineRaw degeneratePool seed =
      [cEra2020s, cCountryESP, cCountryUSA] := by
  have hidx0 : pseudoRandom sineRaw seed degeneratePool.length 0 = 2 := by
    simpa [pseudoRandom, degeneratePool] using h0
  have hget0 : degeneratePool.get? (pseudoRandom sineRaw seed degeneratePool.length 0)
      = some cEra2020s := by rw [hidx0]; rfl
  have pick0 : pickLoop sineRaw seed 0 degeneratePool [] 100 0 = some cEra2020s :=
    pickLoop_first sineRaw seed 0 degeneratePool [] cEra2020s hget0 rfl
  have r0 : rowSlotStep sineRaw seed degeneratePool degeneratePool [] 0
        ⟨[], false, false⟩ = ⟨[cEra2020s], false, false⟩ := by
    have e : rowSlotStep sineRaw seed degeneratePool degeneratePool [] 0 ⟨[], false, false⟩
        = match pickLoop sineRaw seed 0 degeneratePool [] 100 0 with
          | none => (⟨[], false, false⟩ : SelSt)
          | some c => ⟨[] ++ [c], false || (c.type == "country"), false⟩ := rfl
    rw [e, pick0]
    rfl
  have hidx1 : pseudoRandom sineRaw seed ([cCountryUSA, cCountryESP].length) 100 = 1 := by
    simpa [pseudoRandom] using h1
  have hget1 : [cCountryUSA, cCountryESP].get?
      (pseudoRandom sineRaw seed ([cCountryUSA, cCountryESP].length) 100)
      = some cCountryESP := by rw [hidx1]; rfl
  have pick1 : pickLoop sineRaw seed 100 [cCountryUSA, cCountryESP] ["era_2020s"] 100 0
      = some cCountryESP :=
    pickLoop_first sineRaw seed 100 [cCountryUSA, cCountryESP] ["era_2020s"] cCountryESP hget1 rfl
  have r1 : rowSlotStep sineRaw seed degeneratePool degeneratePool [] 1
        ⟨[cEra2020s], false, false⟩ = ⟨[cEra2020s, cCountryESP], true, false⟩ := by
    have e : rowSlotStep sineRaw seed degeneratePool degeneratePool [] 1
          ⟨[cEra2020s], false, false⟩
        = match pickLoop sineRaw seed 100 [cCountryUSA, cCountryESP] ["era_2020s"] 100 0 with
          | none => (⟨[cEra2020s], false, false⟩ : SelSt)
          | some c => ⟨[cEra2020s] ++ [c], false || (c.type == "country"), false⟩ := rfl
    rw [e, pick1]
    rfl
  have r2 : rowSlotStep sineRaw seed degeneratePool degeneratePool [] 2
        ⟨[cEra2020s, cCountryESP], true, false⟩
      = ⟨[cEra2020s, cCountryESP], true, false⟩ := by
    have e : rowSlotStep sineRaw seed degeneratePool degeneratePool [] 2
          ⟨[cEra2020s, cCountryESP], true, false⟩
        = match pickLoop sineRaw seed 200 [] ["era_2020s", "country_ESP"] 100 0 with
          | none => (⟨[cEra2020s, cCountryESP], true, false⟩ : SelSt)
          | some c => ⟨[cEra2020s, cCountryESP] ++ [c], true || (c.type == "country"), false⟩ := rfl
    rw [e, pickLoop_empty]
  have pick3 : pickLoop sineRaw seed 300 [cCountryUSA] ["era_2020s", "country_ESP"] 100 0
      = some cCountryUSA := by
    apply pickLoop_first
    · show [cCountryUSA].get? (sineRaw (seed + (300 : Nat)) % 1) = some cCountryUSA
      simp [Nat.mod_one]
    · rfl
  have c0 : colSlotStep sineRaw seed degeneratePool degeneratePool [] 0
        ⟨[cEra2020s, cCountryESP], true, false⟩
      = ⟨[cEra2020s, cCountryESP, cCountryUSA], true, true⟩ := by
    have e : colSlotStep sineRaw seed degeneratePool degeneratePool [] 0
          ⟨[cEra2020s, cCountryESP], true, false⟩
        = match pickLoop sineRaw seed 300 [cCountryUSA] ["era_2020s", "country_ESP"] 100 0 with
          | none => (⟨[cEra2020s, cCountryESP], true, false⟩ : SelSt)
          | some c => ⟨[cEra2020s, cCountryESP] ++ [c], true, false || (c.type == "country")⟩ := rfl
    rw [e, pick3]
    rfl
  have c1 : colSlotStep sineRaw seed degeneratePool degeneratePool [] 1
        ⟨[cEra2020s, cCountryESP, cCountryUSA], true, true⟩
      = ⟨[cEra2020s, cCountryESP, cCountryUSA], true, true⟩ := by
    have e : colSlotStep sineRaw seed degeneratePool degeneratePool [] 1
          ⟨[cEra2020s, cCountryESP, cCountryUSA], true, true⟩
        = match pickLoop sineRaw seed 400 [] ["era_2020s", "country_ESP", "country_USA"] 100 0 with
          | none => (⟨[cEra2020s, cCountryESP, cCountryUSA], true, true⟩ : SelSt)
          | some c => ⟨[cEra2020s, cCountryESP, cCountryUSA] ++ [c], true,
              true || (c.type == "country")⟩ := rfl
    rw [e, pickLoop_empty]
  have c2 : colSlotStep sineRaw seed degeneratePool degeneratePool [] 2
        ⟨[cEra2020s, cCountryESP, cCountryUSA], true, true⟩
      = ⟨[cEra2020s, cCountryESP, cCountryUSA], true, true⟩ := by
    have e : colSlotStep sineRaw seed degeneratePool degeneratePool [] 2
          ⟨[cEra2020s, cCountryESP, cCountryUSA], true, true⟩
        = match pickLoop sineRaw seed 500 [] ["era_2020s", "country_ESP", "country_USA"] 100 0 with
          | none => (⟨[cEra2020s, cCountryESP, cCountryUSA], true, true⟩ : SelSt)
          | some c => ⟨[cEra2020s, cCountryESP, cCountryUSA] ++ [c], true,
              true || (c.type == "country")⟩ := rfl
    rw [e, pickLoop_empty]
  show (selectAll sineRaw degeneratePool seed).selected = _
  rw [show selectAll sineRaw degeneratePool seed
      = colSlotStep sineRaw seed degeneratePool degeneratePool [] 2
          (colSlotStep sineRaw seed degeneratePool degeneratePool [] 1
            (colSlotStep sineRaw seed degeneratePool degeneratePool [] 0
              (rowSlotStep sineRaw seed degeneratePool degeneratePool [] 2
                (rowSlotStep sineRaw seed degeneratePool degeneratePool [] 1
                  (rowSlotStep sineRaw seed degeneratePool degeneratePool [] 0
                    ⟨[], false, false⟩))))) from rfl]
  rw [r0, r1, r2, c0, c1, c2]

/-- C4: for the three-category pool `degeneratePool`, EVERY hash table and
EVERY seed make the selector return a three-element selection whose
`slice(0, 3)` — the produced grid's row axis at both call sites —
contains two country categories.  The selection phases themselves
respect the one-country-per-axis rule, but the row phase fills only two
of its three slots, so the caller's slice picks up the column phase's
country.  This refutes the claim that at most one country appears among
the three row slots, and contradicts the source's own `CRITICAL RULE`
comment and spec section 8; the fallback widening itself is not at
fault. -/
theorem selectSmart_degenerate_two_countries_in_rows (sineRaw : Int → Nat) (seed : Int) :
    countCountries (gridOfSelection (selectSmartCategories sineRaw degeneratePool seed)).rows = 2 := by
  have hlt : sineRaw seed % 3 < 3 := Nat.mod_lt _ (by decide)
  have h3 : sineRaw seed % 3 = 0 ∨ sineRaw seed % 3 = 1 ∨ sineRaw seed % 3 = 2 := by omega
  rcases h3 with h | h | h
  · rw [degenerate_case_usa_first sineRaw seed h]
    rfl
  · rw [degenerate_case_esp_first sineRaw seed h]
    rfl
  · have hlt2 : sineRaw (seed + 100) % 2 < 2 := Nat.mod_lt _ (by decide)
    have h2 : sineRaw (seed + 100) % 2 = 0 ∨ sineRaw (seed + 100) % 2 = 1 := by omega
    rcases h2 with h2 | h2
    · rw [degenerate_case_era_usa sineRaw seed h h2]
      rfl
    · rw [degenerate_case_era_esp sineRaw seed h h2]
      rfl

/-- When every candidate grid fails validation, the loop body runs its
fuel out, visiting the seed `base + k * 7919` at the attempt with
counter `k + 1`. -/
theorem generationLoopGo_allFail (validate : DailyQuiz → Bool) (quizOf : Int → DailyQuiz)
    (base : Int) (h : ∀ q, validate q = false) :
    ∀ fuel attempts lastSeed seeds,
      generationLoopGo validate quizOf base attempts fuel lastSeed seeds =
        { attempts := attempts + fuel, isValid := false,
          lastSeed := if fuel = 0 then lastSeed
            else base + ((attempts + fuel - 1 : Nat) : Int) * 7919,
          seeds := seeds ++ (List.range fuel).map
            (fun n => base + ((attempts + n : Nat) : Int) * 7919) } := by
  intro fuel
  induction fuel with
  | zero => intro attempts lastSeed seeds; simp [generationLoopGo]
  | succ fuel' ih =>
    intro attempts lastSeed seeds
    rw [generationLoopGo]
    simp only [h, Bool.false_eq_true, if_false, Nat.add_sub_cancel]
    rw [ih]
    have hfun : (fun n => base + ((attempts + 1 + n : Nat) : Int) * 7919)
        = fun n => base + ((attempts + (n + 1) : Nat) : Int) * 7919 := by
      funext n
      have : attempts + 1 + n = attempts + (n + 1) := by omega
      rw [this]
    have hseeds :
        (seeds ++ [base + ((attempts : Nat) : Int) * 7919]) ++ (List.range fuel').map
            (fun n => base + ((attempts + 1 + n : Nat) : Int) * 7919)
          = seeds ++ (List.range (fuel' + 1)).map
            (fun n => base + ((attempts + n : Nat) : Int) * 7919) := by
      rw [hfun, List.range_succ_eq_map, List.map_cons, List.map_map, List.append_assoc,
        List.singleton_append]
      simp [Function.comp]
    rw [hseeds]
    have hlast : (if fuel' = 0 then base + ((attempts : Nat) : Int) * 7919
          else base + ((attempts + 1 + fuel' - 1 : Nat) : Int) * 7919)
        = base + ((attempts + (fuel' + 1) - 1 : Nat) : Int) * 7919 := by
      rcases Nat.eq_zero_or_pos fuel' with h0 | h0
      · subst h0; norm_num
      · rw [if_neg (by omega)]
        congr 2
        omega
    rw [hlast]
    have hatt : attempts + 1 + fuel' = attempts + (fuel' + 1) := by omega
    rw [hatt]
    simp


/-- The full loop under an always-failing validator: exactly 20
attempts, final seed `base + 19 * 7919`, seeds in arithmetic
progression with step 7919. -/
theorem generationLoop_allFail (validate : DailyQuiz → Bool) (quizOf : Int → DailyQuiz)
    (base : Int) (h : ∀ q, validate q = false) :
    generationLoop validate quizOf base =
      { attempts := 20, isValid := false, lastSeed := base + 19 * 7919,
        seeds := (List.range 20).map (fun n : Nat => base + (n : Int) * 7919) } := by
  unfold generationLoop
  rw [generationLoopGo_allFail validate quizOf base h]
  simp only [Nat.zero_add, List.nil_append, if_neg (show ¬(20 = 0) by decide),
    Nat.reduceSub, Nat.cast_ofNat]

/-- C2: with a pool in which every candidate grid fails validation, the
Generation Loop terminates after exactly 20 attempts (the loop is a
fuelled recursion, so it cannot diverge), attempt `n` uses seed
`base + (n - 1) * 7919`, and the `GET` handler then returns the
last-produced grid (the one generated from seed `base + 19 * 7919`) as
a degraded success response with `warning` set and `attempts = 20`. -/
theorem generationLoop_bounded_and_degraded
    (cache : List CachedQuiz) (templates : List Template)
    (quizOf : Int → DailyQuiz) (validate : DailyQuiz → Bool)
    (today : String) (dateNumber now : Int)
    (hc : getCachedQuiz cache today now = none)
    (hm : getManualQuizForDate templates today = none)
    (h : ∀ q, validate q = false) :
    generationLoop validate quizOf dateNumber =
      { attempts := 20, isValid := false, lastSeed := dateNumber + 19 * 7919,
        seeds := (List.range 20).map (fun n : Nat => dateNumber + (n : Int) * 7919) } ∧
    (dailyQuizGET cache templates quizOf validate today dateNumber now
        false false false).response
      = degradedResponse today (quizOf (dateNumber + 19 * 7919)) dateNumber ∧
    (degradedResponse today (quizOf (dateNumber + 19 * 7919)) dateNumber).attempts
      = some 20 ∧
    (degradedResponse today (quizOf (dateNumber + 19 * 7919)) dateNumber).warning
      = some "Validation failed after 20 attempts" ∧
    (degradedResponse today (quizOf (dateNumber + 19 * 7919)) dateNumber).success = true := by
  have hloop := generationLoop_allFail validate quizOf dateNumber h
  refine ⟨hloop, ?_, rfl, rfl, rfl⟩
  unfold dailyQuizGET
  simp only [Bool.not_false, Bool.and_self, if_true, hc, hm, Bool.false_eq_true, if_false, hloop]


/-- Witness for `generationLoop_bounded_and_degraded` at an always-false
validator and a constant generator. -/
theorem generationLoop_bounded_and_degraded_witness :
    generationLoop (fun _ => false) (fun _ => { rows := [], columns := [] }) 20250101 =
      { attempts := 20, isValid := false, lastSeed := 20250101 + 19 * 7919,
        seeds := (List.range 20).map (fun n : Nat => (20250101 : Int) + (n : Int) * 7919) } ∧
    (dailyQuizGET [] [] (fun _ => { rows := [], columns := [] }) (fun _ => false)
        "2025-01-01" 20250101 0 false false false).response
      = degradedResponse "2025-01-01" { rows := [], columns := [] } 20250101 ∧
    (degradedResponse "2025-01-01" ({ rows := [], columns := [] } : DailyQuiz)
        20250101).attempts = some 20 ∧
    (degradedResponse "2025-01-01" ({ rows := [], columns := [] } : DailyQuiz)
        20250101).warning = some "Validation failed after 20 attempts" ∧
    (degradedResponse "2025-01-01" ({ rows := [], columns := [] } : DailyQuiz)
        20250101).success = true :=
  generationLoop_bounded_and_degraded [] [] (fun _ => { rows := [], columns := [] })
    (fun _ => false) "2025-01-01" 20250101 0 rfl rfl (fun _ => rfl)

/-- C5 (counterexample): with an empty cache, no published template and
an always-failing validator, the handler returns the degraded response —
yet its cache state is still empty: the degraded path performs NO cache
write, refuting the claim that the degraded grid is also written to the
cache. -/
theorem degraded_result_not_cached :
    (dailyQuizGET [] [] (fun _ => { rows := [], columns := [] }) (fun _ => false)
        "2025-01-01" 20250101 0 false false false).cache = [] ∧
    (dailyQuizGET [] [] (fun _ => { rows := [], columns := [] }) (fun _ => false)
        "2025-01-01" 20250101 0 false false false).response.warning
      = some "Validation failed after 20 attempts" :=
  ⟨rfl, rfl⟩

/-- C5 (amended): when the resolution chain falls through to algorithmic
generation (cache miss, no published template, no test/bypass flags), a
successfully validated grid is returned AND upserted into the cache with
`quiz_source = "algorithmic"` and a null template reference; the
degraded grid produced after exhausting all attempts is returned to the
caller but NOT written to the cache. -/
theorem resolutionChain_generated_caching
    (cache : List CachedQuiz) (templates : List Template)
    (quizOf : Int → DailyQuiz) (validate : DailyQuiz → Bool)
    (today : String) (dateNumber now : Int)
    (hc : getCachedQuiz cache today now = none)
    (hm : getManualQuizForDate templates today = none) :
    ((generationLoop validate quizOf dateNumber).isValid = true →
      (dailyQuizGET cache templates quizOf validate today dateNumber now
          false false false).cache
        = cacheQuiz cache today "algorithmic"
            (successResponse today
              (quizOf (generationLoop validate quizOf dateNumber).lastSeed)
              dateNumber (generationLoop validate quizOf dateNumber).attempts) none now ∧
      (dailyQuizGET cache templates quizOf validate today dateNumber now
          false false false).response
        = successResponse today
            (quizOf (generationLoop validate quizOf dateNumber).lastSeed)
            dateNumber (generationLoop validate quizOf dateNumber).attempts) ∧
    ((generationLoop validate quizOf dateNumber).isValid = false →
      (dailyQuizGET cache templates quizOf validate today dateNumber now
          false false false).cache = cache ∧
      (dailyQuizGET cache templates quizOf validate today dateNumber now
          false false false).response
        = degradedResponse today
            (quizOf (generationLoop validate quizOf dateNumber).lastSeed) dateNumber) := by
  constructor
  · intro hv
    unfold dailyQuizGET
    simp only [Bool.not_false, Bool.and_self, if_true, hc, hm, Bool.false_eq_true,
      if_false, hv]
    simp
  · intro hv
    unfold dailyQuizGET
    simp only [Bool.not_false, Bool.and_self, if_true, hc, hm, Bool.false_eq_true,
      if_false, hv]
    simp

/-- Witness for `resolutionChain_generated_caching` on the success
branch with an always-true validator. -/
theorem resolutionChain_generated_caching_witness :
    (dailyQuizGET [] [] (fun _ => { rows := [], columns := [] }) (fun _ => true)
        "2025-01-01" 20250101 0 false false false).cache
      = cacheQuiz [] "2025-01-01" "algorithmic"
          (successResponse "2025-01-01" { rows := [], columns := [] } 20250101 1) none 0 ∧
    (dailyQuizGET [] [] (fun _ => { rows := [], columns := [] }) (fun _ => true)
        "2025-01-01" 20250101 0 false false false).response
      = successResponse "2025-01-01" { rows := [], columns := [] } 20250101 1 :=
  (resolutionChain_generated_caching [] [] (fun _ => { rows := [], columns := [] })
    (fun _ => true) "2025-01-01" 20250101 0 rfl rfl).1 rfl

/-- An operation on the cache table: the handler's upsert or the
publish/unpublish cache delete. -/
inductive CacheOp where
  | write (date source : String) (quizData : QuizResponse)
      (templateId : Option String) (now : Int)
  | del (date : String)
deriving Repr

/-- Apply one cache operation to the table state. -/
def applyCacheOp (cache : List CachedQuiz) : CacheOp → List CachedQuiz
  | .write d s q t n => cacheQuiz cache d s q t n
  | .del d => cache.filter (fun e => !(e.date == d))

/-- The per-date uniqueness invariant enforced by the `date UNIQUE`
column of `cached_daily_quizzes`. -/
def uniqueDates (cache : List CachedQuiz) : Prop :=
  (cache.map (fun e => e.date)).Nodup

/-- A successful cache lookup returns a row for the requested date whose
expiry is strictly in the future. -/
theorem getCachedQuiz_mem_sound (cache : List CachedQuiz) (d : String) (now : Int)
    (e : CachedQuiz) (h : getCachedQuiz cache d now = some e) :
    e.date = d ∧ now < e.expires_at := by
  unfold getCachedQuiz at h
  split at h
  next x heq =>
    have hx : x ∈ cache.filter (fun e => e.date == d && decide (now < e.expires_at)) := by
      rw [heq]; exact List.mem_singleton_self _
    have hp := (List.mem_filter.mp hx).2
    rw [Bool.and_eq_true] at hp
    have hxe : x = e := by injection h
    subst hxe
    exact ⟨by simpa using hp.1, by simpa using hp.2⟩
  next => exact Option.noConfusion h

/-- A lookup after every row for the date has expired is a miss. -/
theorem getCachedQuiz_expired (cache : List CachedQuiz) (d : String) (now : Int)
    (h : ∀ e ∈ cache, e.date = d → e.expires_at ≤ now) :
    getCachedQuiz cache d now = none := by
  unfold getCachedQuiz
  have hnil : cache.filter (fun e => e.date == d && decide (now < e.expires_at)) = [] := by
    rw [List.filter_eq_nil_iff]
    intro e he
    by_cases hd : e.date = d
    · have := h e he hd
      simp [hd]
      omega
    · simp [hd]
  rw [hnil]

/-- The upsert preserves per-date uniqueness: it replaces in place when
the date exists and appends a new date otherwise. -/
theorem cacheQuiz_uniqueDates (cache : List CachedQuiz) (d s : String)
    (q : QuizResponse) (t : Option String) (n : Int) (h : uniqueDates cache) :
    uniqueDates (cacheQuiz cache d s q t n) := by
  unfold uniqueDates cacheQuiz
  by_cases hc : cache.any (fun e => e.date == d)
  · rw [if_pos hc, List.map_map]
    have : ∀ e ∈ cache,
        ((fun e => e.date) ∘ fun e =>
          if e.date == d then
            { date := d, quiz_source := s, quiz_template_id := t, quiz_data := q,
              generated_at := n, expires_at := n + 24 }
          else e) e = e.date := by
      intro e _
      by_cases hd : e.date = d <;> simp [hd]
    rw [List.map_congr_left this]
    exact h
  · rw [if_neg hc, List.map_append]
    have hd : d ∉ cache.map (fun e => e.date) := by
      intro hmem
      rcases List.mem_map.mp hmem with ⟨e, he, hde⟩
      have : cache.any (fun e => e.date == d) = true :=
        List.any_eq_true.mpr ⟨e, he, by simp [hde]⟩
      exact hc this
    rw [List.nodup_append]
    refine ⟨h, List.nodup_singleton _, ?_⟩
    intro x hx
    simp only [List.map_cons, List.map_nil, List.mem_singleton]
    intro hxd
    subst hxd
    exact hd hx

/-- Deleting a date's rows preserves per-date uniqueness. -/
theorem cacheDelete_uniqueDates (cache : List CachedQuiz) (d : String)
    (h : uniqueDates cache) :
    uniqueDates (cache.filter (fun e => !(e.date == d))) :=
  List.Nodup.sublist (List.Sublist.map _ (List.filter_sublist _)) h

/-- Any sequence of upserts and deletes preserves per-date uniqueness. -/
theorem applyOps_uniqueDates (ops : List CacheOp) :
    ∀ cache, uniqueDates cache → uniqueDates (ops.foldl applyCacheOp cache) := by
  induction ops with
  | nil => intro cache h; exact h
  | cons op ops ih =>
    intro cache h
    rw [List.foldl_cons]
    apply ih
    cases op with
    | write d s q t n => exact cacheQuiz_uniqueDates cache d s q t n h
    | del d => exact cacheDelete_uniqueDates cache d h

/-- After an upsert for a date there is exactly one row for that date:
the write replaces, never duplicates. -/
theorem cacheQuiz_count_one (cache : List CachedQuiz) (d s : String)
    (q : QuizResponse) (t : Option String) (n : Int) (h : uniqueDates cache) :
    (cacheQuiz cache d s q t n).countP (fun e => e.date == d) = 1 := by
  unfold cacheQuiz
  by_cases hc : cache.any (fun e => e.date == d)
  · rw [if_pos hc, List.countP_map]
    have hpq : ∀ x ∈ cache,
        (((fun e => e.date == d) ∘ fun e =>
          if e.date == d then
            { date := d, quiz_source := s, quiz_template_id := t, quiz_data := q,
              generated_at := n, expires_at := n + 24 }
          else e) x = true ↔ (fun e : CachedQuiz => e.date == d) x = true) := by
      intro x _
      by_cases hd : x.date = d <;> simp [hd]
    rw [List.countP_congr hpq]
    have h1 : cache.countP (fun e => e.date == d) = (cache.map (fun e => e.date)).count d := by
      rw [List.count, List.countP_map]
      rfl
    rw [h1]
    have hm : d ∈ cache.map (fun e => e.date) := by
      rcases List.any_eq_true.mp hc with ⟨e, he, hde⟩
      exact List.mem_map.mpr ⟨e, he, by simpa using hde⟩
    have hle := List.nodup_iff_count_le_one.mp h d
    have hge := List.count_pos_iff.mpr hm
    omega
  · rw [if_neg hc, List.countP_append]
    have h0 : cache.countP (fun e => e.date == d) = 0 := by
      rw [List.countP_eq_zero]
      intro e he
      intro hp
      exact hc (List.any_eq_true.mpr ⟨e, he, hp⟩)
    rw [h0]
    simp

/-- C8: cache reads and writes preserve per-date uniqueness with passive
expiry — (1) a lookup returns a row only when the current time is
strictly before its `expires_at`; (2) a date whose rows have all expired
reads as a miss (which sends the handler to regeneration); (3) any
sequence of upserts and deletes preserves the at-most-one-row-per-date
invariant; (4) an upsert leaves exactly one row for its date, replacing
rather than duplicating an expired one. -/
theorem cacheStore_per_date_semantics :
    (∀ cache d now e, getCachedQuiz cache d now = some e →
       e.date = d ∧ now < e.expires_at) ∧
    (∀ cache d now, (∀ e ∈ cache, e.date = d → e.expires_at ≤ now) →
       getCachedQuiz cache d now = none) ∧
    (∀ cache (ops : List CacheOp), uniqueDates cache →
       uniqueDates (ops.foldl applyCacheOp cache)) ∧
    (∀ cache d s q t n, uniqueDates cache →
       (cacheQuiz cache d s q t n).countP (fun e => e.date == d) = 1) :=
  ⟨getCachedQuiz_mem_sound, getCachedQuiz_expired,
   fun cache ops h => applyOps_uniqueDates ops cache h, cacheQuiz_count_one⟩


/-- A minimal concrete response payload for witnesses. -/
def emptyQuizResponse : QuizResponse :=
  { success := true, date := "2025-01-01", source := none, title := none,
    description := none, difficulty := none, categories := none, seed := none,
    attempts := none, message := none, warning := none, cached := false }

/-- A concrete cache row (expired at time 30) for witnesses. -/
def sampleEntry : CachedQuiz :=
  { date := "2025-01-01", quiz_source := "algorithmic", quiz_template_id := none,
    quiz_data := emptyQuizResponse, generated_at := 0, expires_at := 24 }

/-- Witness for `cacheStore_per_date_semantics`: the expired row reads
as a miss, uniqueness survives a write-then-delete sequence, and an
upsert leaves one row for the date. -/
theorem cacheStore_per_date_semantics_witness :
    getCachedQuiz [sampleEntry] "2025-01-01" 30 = none ∧
    uniqueDates ([CacheOp.write "2025-01-01" "algorithmic" emptyQuizResponse none 30,
        CacheOp.del "2025-01-01"].foldl applyCacheOp [sampleEntry]) ∧
    (cacheQuiz [sampleEntry] "2025-01-01" "algorithmic" emptyQuizResponse none
        30).countP (fun e => e.date == "2025-01-01") = 1 :=
  ⟨cacheStore_per_date_semantics.2.1 [sampleEntry] "2025-01-01" 30
      (by
        intro e he hd
        rcases List.mem_singleton.mp he with rfl
        decide),
   cacheStore_per_date_semantics.2.2.1 [sampleEntry] _ (by simp [uniqueDates]),
   cacheStore_per_date_semantics.2.2.2 [sampleEntry] "2025-01-01" "algorithmic"
     emptyQuizResponse none 30 (by simp [uniqueDates])⟩

/-- The schema invariant enforced by the partial unique index
`idx_quiz_templates_unique_published_date`: at most one published
template per scheduled date. -/
def publishedDateInvariant (templates : List Template) : Prop :=
  ∀ d : String,
    (templates.filter (fun t => t.scheduled_date == some d && t.is_published)).length ≤ 1

/-- C6: with the target template present and the schema's
one-published-per-date invariant, the publish endpoint rejects — leaving
both tables untouched — exactly when the template is already published,
when its scheduled date is null, or when another published template holds
the same date; in the last case the rejection is the 409 conflict
carrying the conflicting template's title.  In every other case (target
unpublished, date present, no other published holder) it succeeds. -/
theorem publish_preconditions
    (templates : List Template) (cache : List CachedQuiz) (id : String) (quiz : Template)
    (hfind : templates.find? (fun t => t.id == id) = some quiz)
    (hinv : publishedDateInvariant templates) :
    (quiz.is_published = true →
       publishTemplate templates cache id = (.alreadyPublished, templates, cache)) ∧
    (quiz.is_published = false → quiz.scheduled_date = none →
       publishTemplate templates cache id = (.missingDate, templates, cache)) ∧
    (∀ d other, quiz.is_published = false → quiz.scheduled_date = some d →
       other ∈ templates → other.is_published = true → other.scheduled_date = some d →
       other.id ≠ id →
       publishTemplate templates cache id = (.conflict other.title, templates, cache)) ∧
    (∀ d, quiz.is_published = false → quiz.scheduled_date = some d →
       (∀ t ∈ templates, t.is_published = true → t.scheduled_date = some d → t.id = id) →
       (publishTemplate templates cache id).1 = PublishOutcome.ok) := by
  refine ⟨?_, ?_, ?_, ?_⟩
  · intro hp
    unfold publishTemplate
    rw [hfind]
    simp [hp]
  · intro hp hd
    unfold publishTemplate
    rw [hfind]
    simp [hp, hd]
  · intro d other hp hd hmem hopub hod hoid
    have hconf : templates.filter (fun t =>
        t.scheduled_date == some d && t.is_published && !(t.id == id)) = [other] := by
      have hmemf : other ∈ templates.filter (fun t =>
          t.scheduled_date == some d && t.is_published && !(t.id == id)) := by
        rw [List.mem_filter]
        refine ⟨hmem, ?_⟩
        simp [hod, hopub, hoid]
      have hlen : (templates.filter (fun t =>
          t.scheduled_date == some d && t.is_published && !(t.id == id))).length ≤ 1 := by
        have hmono : templates.countP (fun t =>
              t.scheduled_date == some d && t.is_published && !(t.id == id))
            ≤ templates.countP (fun t => t.scheduled_date == some d && t.is_published) := by
          apply List.countP_mono_left
          intro x hx hpx
          rw [Bool.and_eq_true] at hpx
          exact hpx.1
        rw [← List.countP_eq_length_filter]
        refine le_trans hmono ?_
        rw [List.countP_eq_length_filter]
        exact hinv d
      have hlen1 : (templates.filter (fun t =>
          t.scheduled_date == some d && t.is_published && !(t.id == id))).length = 1 := by
        have := List.length_pos.mpr (List.ne_nil_of_mem hmemf)
        omega
      rcases List.length_eq_one.mp hlen1 with ⟨a, ha⟩
      rw [ha]
      rw [ha] at hmemf
      rcases List.mem_singleton.mp hmemf with rfl
      rfl
    unfold publishTemplate
    rw [hfind]
    simp only [hp, Bool.false_eq_true, if_false, hd, hconf]
  · intro d hp hd hno
    have hconf : templates.filter (fun t =>
        t.scheduled_date == some d && t.is_published && !(t.id == id)) = [] := by
      rw [List.filter_eq_nil_iff]
      intro t ht hpred
      rw [Bool.and_eq_true, Bool.and_eq_true] at hpred
      have h1 : t.scheduled_date = some d := by simpa using hpred.1.1
      have h2 : t.is_published = true := hpred.1.2
      have h3 : t.id ≠ id := by simpa using hpred.2
      exact h3 (hno t ht h2 h1)
    unfold publishTemplate
    rw [hfind]
    simp only [hp, Bool.false_eq_true, if_false, hd, hconf]


/-- After flipping the target template to published, the published
templates scheduled for its date are exactly the updated target
(provided ids are unique and no other published template held the
date). -/
theorem publishedFilter_after_update (id : String) (quiz : Template) (d : String) :
    ∀ templates : List Template,
    templates.find? (fun t => t.id == id) = some quiz →
    (templates.map (fun t => t.id)).Nodup →
    quiz.scheduled_date = some d →
    (∀ t ∈ templates, t.is_published = true → t.scheduled_date = some d → False) →
    (templates.map (fun t =>
        if t.id == id then { t with is_published := true } else t)).filter
        (fun t => t.scheduled_date == some d && t.is_published)
      = [{ quiz with is_published := true }] := by
  intro templates
  induction templates with
  | nil => intro hfind _ _ _; exact absurd hfind (by simp)
  | cons t ts ih =>
    intro hfind hids hd hno
    by_cases hb : (t.id == id) = true
    · have hb' : (fun t : Template => t.id == id) t = true := hb
      rw [List.find?_cons_of_pos ts hb'] at hfind
      have ht : t = quiz := by injection hfind
      subst ht
      have hrest : (ts.map (fun t =>
          if t.id == id then { t with is_published := true } else t)).filter
          (fun t => t.scheduled_date == some d && t.is_published) = [] := by
        rw [List.filter_eq_nil_iff]
        intro u hu
        rcases List.mem_map.mp hu with ⟨v, hv, rfl⟩
        have hvid : (v.id == id) = false := by
          rw [List.map_cons, List.nodup_cons] at hids
          have htid : t.id = id := by simpa using hb
          rw [beq_eq_false_iff_ne]
          intro hveq
          exact hids.1 (htid ▸ hveq ▸ List.mem_map.mpr ⟨v, hv, rfl⟩)
        rw [hvid]
        simp only [Bool.false_eq_true, if_false, Bool.and_eq_true, not_and]
        intro hdate hpub
        exact hno v (List.mem_cons_of_mem t hv) hpub (by simpa using hdate)
      rw [List.map_cons]
      simp only [hb, eq_self_iff_true, if_true, List.filter_cons, hrest]
      have hpred : (({ t with is_published := true } : Template).scheduled_date == some d
          && ({ t with is_published := true } : Template).is_published) = true := by
        simp [hd]
      simp [hpred]
    · have hbf : (t.id == id) = false := by simpa using hb
      have hb' : ¬ ((fun t : Template => t.id == id) t = true) := by simp [hbf]
      rw [List.find?_cons_of_neg ts hb'] at hfind
      have hpredt : (t.scheduled_date == some d && t.is_published) = false := by
        by_cases hpub : t.is_published = true
        · by_cases hdt : t.scheduled_date = some d
          · exact absurd (hno t (List.mem_cons_self t ts) hpub hdt) (fun h => h)
          · simp [hdt]
        · simp [Bool.eq_false_iff.mpr hpub]
      rw [List.map_cons]
      simp only [hbf, Bool.false_eq_true, if_false, List.filter_cons, hpredt]
      exact ih hfind
        (by rw [List.map_cons, List.nodup_cons] at hids; exact hids.2) hd
        (fun v hv => hno v (List.mem_cons_of_mem t hv))


/-- C7: a successful publish flips the target's `is_published` flag on
and deletes every cache row for its scheduled date, so any later cache
lookup for that date misses and the resolution chain serves the newly
published template (the composed `GET` returns the manual-quiz
response, never a stale generated entry); unpublish is the mirror:
it flips the flag off and deletes the date's cache rows. -/
theorem publish_success_effects
    (templates : List Template) (cache : List CachedQuiz) (id : String)
    (quiz : Template) (d : String) (now : Int)
    (hfind : templates.find? (fun t => t.id == id) = some quiz)
    (hids : (templates.map (fun t => t.id)).Nodup)
    (hp : quiz.is_published = false) (hd : quiz.scheduled_date = some d)
    (hno : ∀ t ∈ templates, t.is_published = true → t.scheduled_date = some d → False) :
    (publishTemplate templates cache id).1 = PublishOutcome.ok ∧
    (publishTemplate templates cache id).2.1
      = templates.map (fun t => if t.id == id then { t with is_published := true } else t) ∧
    (∀ e ∈ (publishTemplate templates cache id).2.2, e.date ≠ d) ∧
    (∀ now2, getCachedQuiz (publishTemplate templates cache id).2.2 d now2 = none) ∧
    getManualQuizForDate (publishTemplate templates cache id).2.1 d
      = some { quiz with is_published := true } ∧
    (∀ quizOf validate dateNumber,
      (dailyQuizGET (publishTemplate templates cache id).2.2
          (publishTemplate templates cache id).2.1 quizOf validate d dateNumber now
          false false false).response
        = manualQuizResponse d { quiz with is_published := true }) ∧
    (∀ (templates2 : List Template) (cache2 : List CachedQuiz) (id2 : String)
        (quiz2 : Template),
       templates2.find? (fun t => t.id == id2) = some quiz2 →
       quiz2.is_published = true →
       (unpublishTemplate templates2 cache2 id2).1 = UnpublishOutcome.ok ∧
       (unpublishTemplate templates2 cache2 id2).2.1
         = templates2.map (fun t =>
             if t.id == id2 then { t with is_published := false } else t) ∧
       (∀ d2, quiz2.scheduled_date = some d2 →
          ∀ e ∈ (unpublishTemplate templates2 cache2 id2).2.2, e.date ≠ d2)) := by
  have hconf : templates.filter (fun t =>
      t.scheduled_date == some d && t.is_published && !(t.id == id)) = [] := by
    rw [List.filter_eq_nil_iff]
    intro t ht hpred
    rw [Bool.and_eq_true, Bool.and_eq_true] at hpred
    exact hno t ht hpred.1.2 (by simpa using hpred.1.1)
  have hpub : publishTemplate templates cache id
      = (PublishOutcome.ok,
         templates.map (fun t => if t.id == id then { t with is_published := true } else t),
         cache.filter (fun e => !(e.date == d))) := by
    unfold publishTemplate
    rw [hfind]
    simp only [hp, Bool.false_eq_true, if_false, hd, hconf]
  have hcachemem : ∀ e ∈ cache.filter (fun e => !(e.date == d)), e.date ≠ d := by
    intro e he
    have := (List.mem_filter.mp he).2
    simpa using this
  have hcachenone : ∀ now2,
      getCachedQuiz (cache.filter (fun e => !(e.date == d))) d now2 = none := by
    intro now2
    unfold getCachedQuiz
    have : (cache.filter (fun e => !(e.date == d))).filter
        (fun e => e.date == d && decide (now2 < e.expires_at)) = [] := by
      rw [List.filter_eq_nil_iff]
      intro e he hpred
      rw [Bool.and_eq_true] at hpred
      exact hcachemem e he (by simpa using hpred.1)
    rw [this]
  have hmanual : getManualQuizForDate
      (templates.map (fun t => if t.id == id then { t with is_published := true } else t)) d
      = some { quiz with is_published := true } := by
    unfold getManualQuizForDate
    rw [publishedFilter_after_update id quiz d templates hfind hids hd hno]
  refine ⟨by rw [hpub], by rw [hpub], ?_, ?_, ?_, ?_, ?_⟩
  · rw [hpub]; exact hcachemem
  · intro now2; rw [hpub]; exact hcachenone now2
  · rw [hpub]; exact hmanual
  · intro quizOf validate dateNumber
    rw [hpub]
    unfold dailyQuizGET
    simp only [Bool.not_false, Bool.and_self, if_true, hcachenone now, hmanual]
  · intro templates2 cache2 id2 quiz2 hfind2 hp2
    have hunpub : unpublishTemplate templates2 cache2 id2
        = (UnpublishOutcome.ok,
           templates2.map (fun t =>
             if t.id == id2 then { t with is_published := false } else t),
           match quiz2.scheduled_date with
           | some d2 => cache2.filter (fun e => !(e.date == d2))
           | none => cache2) := by
      unfold unpublishTemplate
      rw [hfind2]
      simp only [hp2, Bool.not_true, Bool.false_eq_true, if_false]
    refine ⟨by rw [hunpub], by rw [hunpub], ?_⟩
    intro d2 hd2 e he
    rw [hunpub] at he
    simp only [hd2] at he
    have := (List.mem_filter.mp he).2
    simpa using this


/-- A concrete published template for witnesses. -/
def tFirst : Template :=
  { id := "A", title := "First", description := none, difficulty := none,
    row_categories := [], col_categories := [],
    scheduled_date := some "2025-01-01", is_published := true }

/-- A concrete draft template scheduled for the same date. -/
def tSecond : Template :=
  { id := "B", title := "Second", description := none, difficulty := none,
    row_categories := [], col_categories := [],
    scheduled_date := some "2025-01-01", is_published := false }

/-- The sample template table satisfies the published-date invariant. -/
theorem sampleTemplates_invariant : publishedDateInvariant [tFirst, tSecond] := by
  intro d
  by_cases hdq : ("2025-01-01" : String) = d
  · subst hdq; decide
  · have h1 : ((some "2025-01-01" : Option String) == some d) = false := by
      simp [hdq]
    simp [tFirst, tSecond, h1]

/-- Witness for `publish_preconditions`: a conflict on an occupied date
naming the occupying title, and an already-published rejection. -/
theorem publish_preconditions_witness :
    publishTemplate [tFirst, tSecond] [] "B"
      = (PublishOutcome.conflict "First", [tFirst, tSecond], []) ∧
    publishTemplate [tFirst, tSecond] [] "A"
      = (PublishOutcome.alreadyPublished, [tFirst, tSecond], []) :=
  ⟨(publish_preconditions [tFirst, tSecond] [] "B" tSecond rfl
      sampleTemplates_invariant).2.2.1 "2025-01-01" tFirst rfl rfl
      (List.mem_cons_self tFirst [tSecond]) rfl rfl (by decide),
   (publish_preconditions [tFirst, tSecond] [] "A" tFirst rfl
      sampleTemplates_invariant).1 rfl⟩

/-- Witness for `publish_success_effects` on concrete tables. -/
theorem publish_success_effects_witness :
    (publishTemplate [tSecond] [sampleEntry] "B").1 = PublishOutcome.ok ∧
    getManualQuizForDate (publishTemplate [tSecond] [sampleEntry] "B").2.1 "2025-01-01"
      = some { tSecond with is_published := true } ∧
    getCachedQuiz (publishTemplate [tSecond] [sampleEntry] "B").2.2 "2025-01-01" 0
      = none ∧
    (unpublishTemplate [tFirst] [] "A").1 = UnpublishOutcome.ok :=
  have H := publish_success_effects [tSecond] [sampleEntry] "B" tSecond "2025-01-01" 0
    rfl (by simp) rfl rfl
    (by
      intro t ht hpub hdt
      rcases List.mem_singleton.mp ht with rfl
      simp [tSecond] at hpub)
  ⟨H.1, H.2.2.2.2.1, H.2.2.2.1 0,
   (H.2.2.2.2.2.2 [tFirst] [] "A" tFirst rfl rfl).1⟩

/-- Overall validation status of the admin validate route. -/
inductive OverallStatus where
  | excellent
  | good
  | warning
  | error
deriving Repr, DecidableEq

/-- The status reduction of the validate `POST` handler: `error` when
any cell is impossible, else `warning` when more than two cells are
risky, else `good` when any cell is risky, else `excellent`. -/
def overallStatus (cells : List CellValidation) : OverallStatus :=
  let impossibleCells := cells.filter (fun c => c.status == CellStatus.impossible)
  let riskyCells := cells.filter (fun c => c.status == CellStatus.risky)
  if impossibleCells.length > 0 then .error
  else if riskyCells.length > 2 then .warning
  else if riskyCells.length > 0 then .good
  else .excellent

/-- Tier thresholds as the spec words them: safe for count at least 3,
risky for counts 1 and 2, impossible for 0.  Stated for comparison with
the code's `cellStatusOfCount`. -/
def specTier (count : Nat) : CellStatus :=
  if 3 ≤ count then .safe else if 1 ≤ count then .risky else .impossible

/-- Overall status as the spec words it: `error` when at least one cell
is impossible, otherwise `warning` when more than 2 cells are risky,
otherwise `good` when 1 or 2 cells are risky, otherwise `excellent`.
Stated for comparison with the code's `overallStatus`. -/
def specOverallStatus (cells : List CellValidation) : OverallStatus :=
  let impossibleCount := cells.countP (fun c => c.status == CellStatus.impossible)
  let riskyCount := cells.countP (fun c => c.status == CellStatus.risky)
  if 1 ≤ impossibleCount then .error
  else if 2 < riskyCount then .warning
  else if 1 ≤ riskyCount ∧ riskyCount ≤ 2 then .good
  else .excellent

/-- C9: the cell tier computed by `validateCell` matches the spec's
thresholds exactly (safe iff count is at least 3, risky iff it is 1 or 2,
impossible iff it is 0 — including the fetch-error path, which reports
count 0), and the handler's overall-status reduction agrees with the
spec's case table on every cell list. -/
theorem validator_tier_and_status_semantics :
    (∀ n : Nat, cellStatusOfCount n = specTier n ∧
       (cellStatusOfCount n = CellStatus.safe ↔ 3 ≤ n) ∧
       (cellStatusOfCount n = CellStatus.risky ↔ 1 ≤ n ∧ n < 3) ∧
       (cellStatusOfCount n = CellStatus.impossible ↔ n = 0)) ∧
    (∀ env fetched rowCategory colCategory row col,
       (validateCell env fetched rowCategory colCategory row col).status
         = cellStatusOfCount
             (validateCell env fetched rowCategory colCategory row col).playerCount) ∧
    (∀ cells, overallStatus cells = specOverallStatus cells) := by
  refine ⟨?_, ?_, ?_⟩
  · intro n
    unfold cellStatusOfCount specTier
    refine ⟨?_, ?_, ?_, ?_⟩ <;> split_ifs <;>
      first
      | rfl
      | omega
      | (simp_all <;> omega)
  · intro env fetched rowCategory colCategory row col
    cases fetched <;> rfl
  · intro cells
    unfold overallStatus specOverallStatus
    rw [List.countP_eq_length_filter, List.countP_eq_length_filter]
    dsimp only
    split_ifs <;> first | rfl | omega

/-- C10: predicate evaluation is total at the public interface — the
embedding of `validateCategory` is a function into `Bool`, so every
player record (however sparse) and every category yield a boolean; an
unknown category type falls to the default branch and yields `false`,
and missing (non-array) related data yields `false` for the tournament,
achievement and ranking predicates.  (The TypeScript try/catch that
maps a thrown exception to `false` has no counterpart to model: every
branch of the embedding already returns.) -/
theorem validateCategory_total_defaults (env : JsEnv) (player : Player)
    (category : Category) :
    (category.type ∉
        (["country", "tournament", "era", "style", "ranking", "achievement"] :
          List String) →
       validateCategory env player category = false) ∧
    (player.player_achievements = none → category.type = "tournament" →
       validateCategory env player category = false) ∧
    (player.player_achievements = none → category.type = "achievement" →
       validateCategory env player category = false) ∧
    (player.player_rankings = none → category.type = "ranking" →
       validateCategory env player category = false) := by
  refine ⟨?_, ?_, ?_, ?_⟩
  · intro h
    unfold validateCategory
    split <;> simp_all
  · intro ha ht
    simp [validateCategory, ht, validateTournamentFromData, ha]
  · intro ha ht
    simp [validateCategory, ht, validateAchievementFromData, ha]
  · intro hr ht
    simp [validateCategory, ht, validateRankingFromData, hr]

/-- A player record with every nullable field missing. -/
def pEmpty : Player :=
  { name := "N.N.", nationality := none, turned_pro := none, retired := none,
    plays_hand := none, player_achievements := none, player_rankings := none }

/-- A category with an unknown type tag. -/
def cBogus : Category :=
  { type := "nickname", id := "nickname_x", label := "X",
    description := "X", value := "x" }

/-- A concrete tournament category. -/
def cTournamentW : Category :=
  { type := "tournament", id := "tournament_Wimbledon", label := "Wimbledon",
    description := "Won Wimbledon", value := "Wimbledon" }

/-- A concrete ranking category. -/
def cRankingTop10 : Category :=
  { type := "ranking", id := "ranking_top10", label := "Top 10",
    description := "Reached Top 10", value := "top10" }

/-- A concrete achievement category. -/
def cAchievementX : Category :=
  { type := "achievement", id := "achievement_olympic_gold", label := "Olympic Gold",
    description := "Olympic Gold", value := "olympic_gold" }

/-- Witness for `validateCategory_total_defaults` on the sparse player
record. -/
theorem validateCategory_total_defaults_witness :
    validateCategory defaultEnv pEmpty cBogus = false ∧
    validateCategory defaultEnv pEmpty cTournamentW = false ∧
    validateCategory defaultEnv pEmpty cAchievementX = false ∧
    validateCategory defaultEnv pEmpty cRankingTop10 = false :=
  ⟨(validateCategory_total_defaults defaultEnv pEmpty cBogus).1 (by decide),
   (validateCategory_total_defaults defaultEnv pEmpty cTournamentW).2.1 rfl rfl,
   (validateCategory_total_defaults defaultEnv pEmpty cAchievementX).2.2.1 rfl rfl,
   (validateCategory_total_defaults defaultEnv pEmpty cRankingTop10).2.2.2 rfl rfl⟩

end Tennis
